import Mathlib

/-!
Shallow embedding of the Teddy-Saga LinkedIn job scraper (`src/main.py`)
and verification of the specification claims about it.

The scraper is a single asynchronous function `scrape_jobs` plus a `main`
wrapper.  All I/O-facing parts (Playwright page handles, the Google Sheets
client) appear here as explicit inputs: a detail page is modelled by the
texts its selectors would return, the sheet by a list of rows, a button
click by the observations the code makes after clicking.  Every branch of
the embedded definitions is translated from the source, with the source
line numbers recorded in the doc comments.
-/

set_option autoImplicit false

namespace TeddySaga

/-! ### Python string primitives

`strContains text pat` models the Python expression `pat in text`;
`String.trim` stands in for Python `str.strip()`. -/

/-- `leadsWith pat text` is true when `pat` is an initial segment of `text`. -/
def leadsWith : List Char → List Char → Bool
  | [], _ => true
  | _ :: _, [] => false
  | p :: ps, t :: ts => p == t && leadsWith ps ts

/-- `containsSub pat text`: `pat` occurs as a contiguous run inside `text`
(the empty pattern occurs in every text, as in Python). -/
def containsSub (pat : List Char) : List Char → Bool
  | [] => leadsWith pat []
  | t :: ts => leadsWith pat (t :: ts) || containsSub pat ts

/-- Python `pat in text` on strings. -/
def strContains (text pat : String) : Bool :=
  containsSub pat.data text.data

/-! ### UrlNormalizer — `src/main.py` lines 170-183

For each collected anchor href the source does:
```
if "linkedin.com/jobs/view/" in job_url: job_urls.append(job_url)
elif "currentJobId=" in job_url:
    job_id_match = re.search(r"currentJobId=(\d+)", job_url)
    if job_id_match:
        job_urls.append(f"https://www.linkedin.com/jobs/view/{id}/")
    # note: when the regex finds no digits NOTHING is appended
else: job_urls.append(job_url)
```
`normalizeHref` returns `none` exactly when the href contributes no
candidate URL (the regex-miss branch). -/

/-- Longest run of leading decimal digits, as captured by `(\d+)`. -/
def takeDigits : List Char → List Char
  | [] => []
  | c :: cs => if c.isDigit then c :: takeDigits cs else []

/-- Model of `re.search(r"currentJobId=(\d+)", u)`: the capture of the
leftmost position where the literal `currentJobId=` is followed by at
least one digit; `none` when no such position exists. -/
def findJobId : List Char → Option (List Char)
  | [] => none
  | c :: cs =>
    if leadsWith "currentJobId=".data (c :: cs) then
      match takeDigits (List.drop "currentJobId=".data.length (c :: cs)) with
      | [] => findJobId cs
      | d :: ds => some (d :: ds)
    else findJobId cs

/-- The per-href normalization of lines 170-183; `none` means the href is
dropped (no candidate produced). -/
def normalizeHref (u : String) : Option String :=
  if strContains u "linkedin.com/jobs/view/" then some u
  else if strContains u "currentJobId=" then
    match findJobId u.data with
    | some ds => some ("https://www.linkedin.com/jobs/view/" ++ String.mk ds ++ "/")
    | none => none
  else some u

/-- C6 counterexample: an href that carries the `currentJobId=` parameter
name with a non-numeric value is dropped by the source (nothing is
appended to `job_urls`), so it does not pass through unchanged as the
claim states for every non-canonical, non-numeric-id href. -/
theorem C6_counterexample :
    normalizeHref "https://www.linkedin.com/jobs/search?currentJobId=abc&x=1" = none ∧
    normalizeHref "https://www.linkedin.com/jobs/search?currentJobId=abc&x=1" ≠
      some "https://www.linkedin.com/jobs/search?currentJobId=abc&x=1" := by
  decide

/-- C6 amended: normalization is a total function that never fails, and
(1) an href containing the canonical detail-path marker is returned
unchanged; (2) an href without that marker and without the
`currentJobId=` parameter passes through unchanged; (3) an href without
the marker whose `currentJobId=` parameter has no numeric value is
dropped (contributes no candidate) rather than passing through; (4) the
spec test case rewrites to the canonical detail URL, and a plain
malformed string passes through unchanged. -/
theorem C6_amended :
    (∀ u : String, strContains u "linkedin.com/jobs/view/" = true →
      normalizeHref u = some u) ∧
    (∀ u : String, strContains u "linkedin.com/jobs/view/" = false →
      strContains u "currentJobId=" = false → normalizeHref u = some u) ∧
    (∀ (u : String) (ds : List Char), strContains u "linkedin.com/jobs/view/" = false →
      strContains u "currentJobId=" = true → findJobId u.data = some ds →
      normalizeHref u =
        some ("https://www.linkedin.com/jobs/view/" ++ String.mk ds ++ "/")) ∧
    (∀ u : String, strContains u "linkedin.com/jobs/view/" = false →
      findJobId u.data = none → strContains u "currentJobId=" = true →
      normalizeHref u = none) ∧
    normalizeHref
        "https://www.linkedin.com/jobs/search?keywords=engineer&currentJobId=123456&origin=SEARCH" =
      some "https://www.linkedin.com/jobs/view/123456/" ∧
    normalizeHref "not a url at all" = some "not a url at all" := by
  refine ⟨?_, ?_, ?_, ?_, by decide, by decide⟩
  · intro u h
    simp [normalizeHref, h]
  · intro u h1 h2
    simp [normalizeHref, h1, h2]
  · intro u ds h1 h2 h3
    simp [normalizeHref, h1, h2, h3]
  · intro u h1 h2 h3
    simp [normalizeHref, h1, h2, h3]

/-- C6 amended, witness: the canonical-URL conjunct and the general
rewrite conjunct, each at a concrete href. -/
theorem C6_amended_witness :
    normalizeHref "https://www.linkedin.com/jobs/view/99/" =
      some "https://www.linkedin.com/jobs/view/99/" ∧
    normalizeHref "https://x.example/jobs/search?currentJobId=777" =
      some ("https://www.linkedin.com/jobs/view/" ++ String.mk ['7', '7', '7'] ++ "/") :=
  ⟨C6_amended.1 "https://www.linkedin.com/jobs/view/99/" (by decide),
    C6_amended.2.2.1 "https://x.example/jobs/search?currentJobId=777" ['7', '7', '7']
      (by decide) (by decide) (by decide)⟩

/-! ### FieldExtractor — `src/main.py` lines 217-309

Each field is extracted by a chain of `query_selector` calls that falls
through while the selector matches NO element, e.g. for `company`
(lines 232-241):
```
company_element = qs(".job-details-jobs-unified-top-card__company-name a")
if not company_element:
    company_element = qs(".job-details-jobs-unified-top-card__company-name")
if company_element:
    company = (await company_element.inner_text()).strip()
```
A strategy is modelled by the `Option String` it observes: `none` when the
selector matches no element, `some t` when it matches an element whose
inner text is `t` (possibly empty). -/

/-- Remove leading whitespace characters. -/
def dropLeadingWs : List Char → List Char
  | [] => []
  | c :: cs => if c.isWhitespace then dropLeadingWs cs else c :: cs

/-- Python `str.strip()`: whitespace removed from both ends. -/
def pyStrip (s : String) : String :=
  String.mk (dropLeadingWs (dropLeadingWs s.data.reverse).reverse)

/-- The first strategy that matched an element, regardless of its text. -/
def firstMatch : List (Option String) → Option String
  | [] => none
  | some t :: _ => some t
  | none :: rest => firstMatch rest

/-- The fallback chain of the source: take the first strategy that matched
an element and strip its text; the field stays `""` when nothing matched. -/
def extractField (strategies : List (Option String)) : String :=
  match firstMatch strategies with
  | some t => pyStrip t
  | none => ""

/-- Observations of the two company selectors of lines 232-241. -/
structure CompanyDom where
  companyLink : Option String
  companyPlain : Option String
deriving DecidableEq

/-- Company extraction, lines 232-241. -/
def extractCompany (d : CompanyDom) : String :=
  extractField [d.companyLink, d.companyPlain]

/-- Modelled from the spec wording of the claim, for comparison with
`extractField`: the first strategy whose text is non-empty (after
stripping) wins; strategies that matched an element with empty text are
passed over. -/
def specFirstNonEmpty : List (Option String) → String
  | [] => ""
  | some t :: rest => if pyStrip t = "" then specFirstNonEmpty rest else pyStrip t
  | none :: rest => specFirstNonEmpty rest

/-- Helper: an all-`none` block of strategies in front is skipped. -/
theorem firstMatch_append_of_none (pre rest : List (Option String))
    (h : ∀ s ∈ pre, s = none) :
    firstMatch (pre ++ rest) = firstMatch rest := by
  induction pre with
  | nil => rfl
  | cons s pre ih =>
    have hs : s = none := h s (by simp)
    subst hs
    exact ih (fun s hmem => h s (by simp [hmem]))

/-- C5 counterexample: the source falls back only when a selector matches
NO element.  When the first company selector matches an element whose text
is empty, the second selector is never consulted, so the field is `""`;
the claim (first strategy yielding non-empty text wins) would give
`"Acme Corp"`. -/
theorem C5_counterexample :
    extractCompany { companyLink := some "", companyPlain := some "Acme Corp" } = "" ∧
    specFirstNonEmpty [some "", some "Acme Corp"] = "Acme Corp" ∧
    extractCompany { companyLink := some "", companyPlain := some "Acme Corp" } ≠
      specFirstNonEmpty [some "", some "Acme Corp"] := by
  decide

/-- C5 amended: the strategies of a field execute in order and the first
strategy that MATCHES AN ELEMENT is accepted — its (stripped) text is used
even when empty and all later strategies are skipped; if no strategy
matches, the field is the empty string (the record is not aborted: the
extractor is total and returns a value for every input).  In particular
strategies that match nothing are skipped, so for chains whose matching
strategy has non-empty text the spec examples hold:
`[A=nothing, B=nothing, C="Remote, India"]` yields `"Remote, India"`. -/
theorem C5_amended :
    (∀ (pre : List (Option String)) (t : String) (post : List (Option String)),
      (∀ s ∈ pre, s = none) → extractField (pre ++ some t :: post) = pyStrip t) ∧
    (∀ strategies : List (Option String),
      (∀ s ∈ strategies, s = none) → extractField strategies = "") ∧
    extractField [none, none, some "Remote, India"] = "Remote, India" ∧
    extractCompany { companyLink := none, companyPlain := some " Acme Corp " } =
      "Acme Corp" := by
  refine ⟨?_, ?_, by decide, by decide⟩
  · intro pre t post h
    unfold extractField
    rw [firstMatch_append_of_none pre (some t :: post) h]
    rfl
  · intro strategies h
    unfold extractField
    rw [show strategies = strategies ++ [] by simp,
      firstMatch_append_of_none strategies [] h]
    rfl

/-- C5 amended, witness: the first conjunct at a concrete chain. -/
theorem C5_amended_witness :
    extractField ([none] ++ some "Engineer" :: [some "ignored"]) = pyStrip "Engineer" :=
  C5_amended.1 [none] "Engineer" [some "ignored"] (by decide)

/-! ### ApplyLinkResolver — `src/main.py` lines 317-440

After an apply element is found (the `ElementFound` state of the spec),
lines 349-423 inspect its tag.  The source stores the outcome in the
string `apply_link`; here each assignment becomes a constructor of
`ApplyResolution`, with `unresolved` carrying the literal sentinel string
the source assigns (the spec renames these sentinels to tagged
`Unresolved(reason)` values). -/

/-- Python `str.lower()` (ASCII case folding suffices for the markers). -/
def pyLower (s : String) : String :=
  String.mk (s.data.map Char.toLower)

/-- The terminal outcome of apply-link resolution.  `unresolved s` records
the literal sentinel string the source assigns to `apply_link`. -/
inductive ApplyResolution where
  | directUrl (href : String)
  | easyApply (url : String)
  | externalClickThrough (url : String)
  | unresolved (sentinel : String)
deriving DecidableEq

/-- Side effect performed while resolving an external-apply button. -/
inductive InteractEffect where
  | noEffect
  | closedNewTab
  | navigatedBack (url : String)
deriving DecidableEq

/-- Sentinel of line 360 (the spec's `Unresolved("legal redirect")`). -/
def legalRedirectSentinel : String := "External apply link (legal redirect detected)"

/-- Sentinel of line 422 (the spec's `Unresolved("interaction error")`). -/
def interactionErrorSentinel : String := "External apply available (interaction error)"

/-- Sentinel of line 416, one of the two no-navigation outcomes. -/
def companyWebsiteSentinel : String := "External company website application"

/-- Sentinel of line 418, the other no-navigation outcome. -/
def clickSuccessfulSentinel : String := "External application (click successful)"

/-- Link-type element, lines 353-361:
```
apply_href = await apply_button.get_attribute("href")
if apply_href and not ("user-agreement" in apply_href or "legal" in apply_href):
    apply_link = apply_href
else:
    apply_link = "External apply link (legal redirect detected)"
```
A missing attribute (`None`) and the empty string are both falsy in
Python, so they take the sentinel branch. -/
def resolveLinkElement (href : Option String) : ApplyResolution :=
  match href with
  | none => ApplyResolution.unresolved legalRedirectSentinel
  | some h =>
    if (h != "") && !(strContains h "user-agreement" || strContains h "legal") then
      ApplyResolution.directUrl h
    else ApplyResolution.unresolved legalRedirectSentinel

/-- Line 368: `"Easy Apply" in (button_text + " " + (button_aria or ""))`. -/
def easyApplyIndicated (text : String) (aria : Option String) : Bool :=
  strContains (text ++ " " ++ aria.getD "") "Easy Apply"

/-- What the source observes after clicking an external-apply button
(lines 374-423): whether some step raised, the URL of the newest page when
the open-page count grew, the current page URL after the bounded wait, and
the re-read `aria-label` of the button (line 414). -/
structure ClickObs where
  faulted : Bool
  newTabUrl : Option String
  urlAfter : String
  ariaAfter : Option String
deriving DecidableEq

/-- The `Interacting` state, lines 374-423.  `jobUrl` is the candidate
detail URL the pipeline navigated to, `currentUrl` the value of `page.url`
read at line 377 just before the click.
- a raised step (the enclosing `except`, line 421) yields the
  interaction-error sentinel;
- a new page (lines 391-402) yields its URL and the page is closed —
  both the loaded and the load-timeout sub-branches capture the URL and
  close the page, so they coincide here;
- a changed current-page URL that differs from both `currentUrl` and
  `jobUrl` (line 406) is captured and the pipeline navigates back to
  `jobUrl` (line 410);
- otherwise one of the two no-navigation sentinels, chosen by the
  re-read `aria-label` (lines 413-419). -/
def resolveButtonClick (jobUrl currentUrl : String) (obs : ClickObs) :
    ApplyResolution × InteractEffect :=
  if obs.faulted then
    (ApplyResolution.unresolved interactionErrorSentinel, InteractEffect.noEffect)
  else
    match obs.newTabUrl with
    | some u => (ApplyResolution.externalClickThrough u, InteractEffect.closedNewTab)
    | none =>
      if (obs.urlAfter != currentUrl) && (obs.urlAfter != jobUrl) then
        (ApplyResolution.externalClickThrough obs.urlAfter,
          InteractEffect.navigatedBack jobUrl)
      else
        if strContains (pyLower (obs.ariaAfter.getD "")) "company website" then
          (ApplyResolution.unresolved companyWebsiteSentinel, InteractEffect.noEffect)
        else
          (ApplyResolution.unresolved clickSuccessfulSentinel, InteractEffect.noEffect)

/-- The apply element found by the selector scan, as the source then
inspects it: its tag name, and the observations each branch reads. -/
inductive ApplyElement where
  | link (href : Option String)
  | button (text : String) (aria : Option String) (obs : ClickObs)

/-- The `ElementFound` dispatch, lines 349-423: links are classified by
`resolveLinkElement`; buttons whose text/label contains `Easy Apply`
resolve to the job's own URL with no interaction (lines 368-370); other
buttons are clicked (`resolveButtonClick`). -/
def resolveElement (jobUrl currentUrl : String) : ApplyElement → ApplyResolution × InteractEffect
  | ApplyElement.link href => (resolveLinkElement href, InteractEffect.noEffect)
  | ApplyElement.button text aria obs =>
    if easyApplyIndicated text aria then
      (ApplyResolution.easyApply jobUrl, InteractEffect.noEffect)
    else resolveButtonClick jobUrl currentUrl obs

/-- The two no-navigation sentinels, which the spec collapses into the
single outcome `Unresolved("no navigation observed")`. -/
def isNoNavOutcome : ApplyResolution → Bool
  | ApplyResolution.unresolved s =>
    s == companyWebsiteSentinel || s == clickSuccessfulSentinel
  | _ => false

/-- C3 counterexample: a link element whose `href` attribute is the empty
string does not point to the legal/redirect pages, yet the source
classifies it as the legal-redirect sentinel instead of `DirectUrl("")`:
the Python truthiness test `if apply_href and ...` sends empty (and
missing) hrefs to the sentinel branch. -/
theorem C3_counterexample :
    strContains "" "user-agreement" = false ∧
    strContains "" "legal" = false ∧
    resolveElement "https://www.linkedin.com/jobs/view/1/"
        "https://www.linkedin.com/jobs/view/1/" (ApplyElement.link (some "")) =
      (ApplyResolution.unresolved legalRedirectSentinel, InteractEffect.noEffect) ∧
    resolveElement "https://www.linkedin.com/jobs/view/1/"
        "https://www.linkedin.com/jobs/view/1/" (ApplyElement.link (some "")) ≠
      (ApplyResolution.directUrl "", InteractEffect.noEffect) := by
  decide

/-- C3 amended: for a link-type apply element with a NON-EMPTY href, the
source yields the legal-redirect outcome when the href contains
`user-agreement` or `legal` and `DirectUrl(href)` otherwise; a link with
a missing or empty href also yields the legal-redirect outcome; a
button-type element whose visible text or label contains `Easy Apply`
yields `EasyApply(sourceUrl)` — the job's own detail URL — with no
interaction performed. -/
theorem C3_amended (jobUrl currentUrl : String) :
    (∀ h : String, h ≠ "" →
      resolveElement jobUrl currentUrl (ApplyElement.link (some h)) =
        (if strContains h "user-agreement" || strContains h "legal" then
          (ApplyResolution.unresolved legalRedirectSentinel, InteractEffect.noEffect)
        else (ApplyResolution.directUrl h, InteractEffect.noEffect))) ∧
    resolveElement jobUrl currentUrl (ApplyElement.link none) =
      (ApplyResolution.unresolved legalRedirectSentinel, InteractEffect.noEffect) ∧
    resolveElement jobUrl currentUrl (ApplyElement.link (some "")) =
      (ApplyResolution.unresolved legalRedirectSentinel, InteractEffect.noEffect) ∧
    (∀ (text : String) (aria : Option String) (obs : ClickObs),
      easyApplyIndicated text aria = true →
      resolveElement jobUrl currentUrl (ApplyElement.button text aria obs) =
        (ApplyResolution.easyApply jobUrl, InteractEffect.noEffect)) := by
  refine ⟨?_, rfl, rfl, ?_⟩
  · intro h hne
    have hb : (h != "") = true := by
      simp [bne_iff_ne, hne]
    by_cases hleg : (strContains h "user-agreement" || strContains h "legal") = true
    · simp [resolveElement, resolveLinkElement, hb, hleg]
    · simp only [Bool.not_eq_true] at hleg
      simp [resolveElement, resolveLinkElement, hb, hleg]
  · intro text aria obs hind
    simp [resolveElement, hind]

/-- C3 amended, witness: the non-empty-href conjunct and the Easy Apply
conjunct at concrete inputs. -/
theorem C3_amended_witness :
    resolveElement "https://www.linkedin.com/jobs/view/1/" "u"
        (ApplyElement.link (some "https://acme.example/careers/42")) =
      (ApplyResolution.directUrl "https://acme.example/careers/42",
        InteractEffect.noEffect) ∧
    resolveElement "https://www.linkedin.com/jobs/view/1/" "u"
        (ApplyElement.button "Easy Apply" none ⟨false, none, "u", none⟩) =
      (ApplyResolution.easyApply "https://www.linkedin.com/jobs/view/1/",
        InteractEffect.noEffect) := by
  constructor
  · have := (C3_amended "https://www.linkedin.com/jobs/view/1/" "u").1
      "https://acme.example/careers/42" (by decide)
    rw [this]
    decide
  · exact (C3_amended "https://www.linkedin.com/jobs/view/1/" "u").2.2.2
      "Easy Apply" none ⟨false, none, "u", none⟩ (by decide)

/-- C4 counterexample: the pre-click URL differs from the candidate URL
and the click changes the page URL — to exactly the candidate URL.  The
URL changed, so the claim demands `ExternalClickThrough`, but the source
guard of line 406 (`new_url != current_url and new_url != job_url`) also
excludes the candidate URL, and the outcome is a no-navigation sentinel. -/
theorem C4_counterexample :
    ("https://j.example/view/1/" : String) ≠ "https://c.example/current" ∧
    resolveButtonClick "https://j.example/view/1/" "https://c.example/current"
        ⟨false, none, "https://j.example/view/1/", none⟩ =
      (ApplyResolution.unresolved clickSuccessfulSentinel, InteractEffect.noEffect) := by
  decide

/-- C4 amended, the `Interacting` state: a faulted interaction yields the
interaction-error outcome; a new page yields `ExternalClickThrough` of its
URL and the new page is closed; a changed current-page URL that differs
from BOTH the pre-click URL and the candidate's detail URL is captured as
`ExternalClickThrough` with a navigation back to the detail URL; when the
URL is unchanged or equals the detail URL, the outcome is one of the two
no-navigation sentinels (the spec's `Unresolved("no navigation
observed")`) with no side effect; the resolver is total, so every branch
terminates in a resolved outcome. -/
theorem C4_amended (jobUrl currentUrl : String) (obs : ClickObs) :
    (obs.faulted = true →
      resolveButtonClick jobUrl currentUrl obs =
        (ApplyResolution.unresolved interactionErrorSentinel, InteractEffect.noEffect)) ∧
    (∀ u : String, obs.faulted = false → obs.newTabUrl = some u →
      resolveButtonClick jobUrl currentUrl obs =
        (ApplyResolution.externalClickThrough u, InteractEffect.closedNewTab)) ∧
    (obs.faulted = false → obs.newTabUrl = none →
      obs.urlAfter ≠ currentUrl → obs.urlAfter ≠ jobUrl →
      resolveButtonClick jobUrl currentUrl obs =
        (ApplyResolution.externalClickThrough obs.urlAfter,
          InteractEffect.navigatedBack jobUrl)) ∧
    (obs.faulted = false → obs.newTabUrl = none →
      (obs.urlAfter = currentUrl ∨ obs.urlAfter = jobUrl) →
      isNoNavOutcome (resolveButtonClick jobUrl currentUrl obs).1 = true ∧
        (resolveButtonClick jobUrl currentUrl obs).2 = InteractEffect.noEffect) := by
  refine ⟨?_, ?_, ?_, ?_⟩
  · intro hf
    simp [resolveButtonClick, hf]
  · intro u hf hn
    simp [resolveButtonClick, hf, hn]
  · intro hf hn h1 h2
    simp [resolveButtonClick, hf, hn, bne_iff_ne, h1, h2]
  · intro hf hn hor
    have hcond : ((obs.urlAfter != currentUrl) && (obs.urlAfter != jobUrl)) = false := by
      rcases hor with h | h <;> simp [h]
    by_cases haria : strContains (pyLower (obs.ariaAfter.getD "")) "company website" = true
    · simp [resolveButtonClick, hf, hn, hcond, haria, isNoNavOutcome]
    · simp only [Bool.not_eq_true] at haria
      simp [resolveButtonClick, hf, hn, hcond, haria, isNoNavOutcome]

/-- C4 amended, witness: the new-tab conjunct at a concrete observation. -/
theorem C4_amended_witness :
    resolveButtonClick "https://j.example/view/1/" "https://j.example/view/1/"
        ⟨false, some "https://acme.example/apply/42", "https://j.example/view/1/", none⟩ =
      (ApplyResolution.externalClickThrough "https://acme.example/apply/42",
        InteractEffect.closedNewTab) :=
  (C4_amended "https://j.example/view/1/" "https://j.example/view/1/"
      ⟨false, some "https://acme.example/apply/42", "https://j.example/view/1/", none⟩).2.1
    "https://acme.example/apply/42" rfl rfl

/-! ### Candidate loop — `src/main.py` lines 192-451

```
successful_jobs = 0
for i, job_url in enumerate(job_urls):
    if successful_jobs >= 10:
        break
    try:
        await page.goto(job_url, ...)
        if "user-agreement" in page.url or "legal" in page.url: continue
        ... extract title/company/location/posted/apply_link ...
        if title:
            job_data.append([title, company, location, posted, apply_link])
            successful_jobs += 1
    except Exception: continue
```
A candidate is modelled by what its visit produces: a redirect to a legal
page, an exception somewhere in the body, or a loaded page whose extracted
field values are given.  `visitLoop` returns the number of candidates the
loop navigated to together with the rows appended to `job_data`. -/

/-- The extracted field values of one visited detail page (each already
stripped by its extractor). -/
structure PageData where
  title : String
  company : String
  location : String
  posted : String
  applyLink : String
deriving DecidableEq

/-- What visiting one candidate URL produces. -/
inductive Visit where
  | legalRedirect
  | fault
  | ok (d : PageData)
deriving DecidableEq

/-- The row appended to `job_data` at line 443. -/
def row (d : PageData) : List String :=
  [d.title, d.company, d.location, d.posted, d.applyLink]

/-- The candidate loop of lines 192-451, started with
`successful_jobs = succ`.  The literal cap `10` is hardcoded at line 194.
First component: how many candidates were navigated to; second: the rows
appended to `job_data`, in order. -/
def visitLoop : List Visit → Nat → Nat × List (List String)
  | [], _ => (0, [])
  | v :: rest, succ =>
    if 10 ≤ succ then (0, [])
    else
      match v with
      | Visit.legalRedirect => ((visitLoop rest succ).1 + 1, (visitLoop rest succ).2)
      | Visit.fault => ((visitLoop rest succ).1 + 1, (visitLoop rest succ).2)
      | Visit.ok d =>
        if d.title = "" then
          ((visitLoop rest succ).1 + 1, (visitLoop rest succ).2)
        else
          ((visitLoop rest (succ + 1)).1 + 1, row d :: (visitLoop rest (succ + 1)).2)

/-- A sample fully-populated detail page. -/
def goodPage : PageData :=
  ⟨"Software Engineer", "Acme Corp", "Remote, India", "2 hours ago",
    "https://acme.example/careers/42"⟩

/-- A sample detail page whose title stayed empty after all strategies. -/
def emptyTitlePage : PageData :=
  ⟨"", "Acme Corp", "Remote, India", "2 hours ago",
    "https://acme.example/careers/42"⟩

/-- Helper: a loop entered with the cap already reached does nothing. -/
theorem visitLoop_capped (cands : List Visit) (succ : Nat) (h : 10 ≤ succ) :
    visitLoop cands succ = (0, []) := by
  cases cands <;> simp [visitLoop, h]

/-- Helper: every row in `job_data` comes from a visited page whose
extracted title is non-empty. -/
theorem visitLoop_row_shape (cands : List Visit) : ∀ (succ : Nat) (r : List String),
    r ∈ (visitLoop cands succ).2 → ∃ d : PageData, r = row d ∧ d.title ≠ "" := by
  induction cands with
  | nil =>
    intro succ r hr
    simp [visitLoop] at hr
  | cons v rest ih =>
    intro succ r hr
    by_cases hcap : 10 ≤ succ
    · simp [visitLoop, hcap] at hr
    · cases v with
      | legalRedirect =>
        simp only [visitLoop, if_neg hcap] at hr
        exact ih succ r hr
      | fault =>
        simp only [visitLoop, if_neg hcap] at hr
        exact ih succ r hr
      | ok d =>
        by_cases ht : d.title = ""
        · simp only [visitLoop, if_neg hcap, if_pos ht] at hr
          exact ih succ r hr
        · simp only [visitLoop, if_neg hcap, if_neg ht, List.mem_cons] at hr
          rcases hr with hr | hr
          · exact ⟨d, hr, ht⟩
          · exact ih (succ + 1) r hr

/-- Helper: the loop emits at most `10 - succ` rows. -/
theorem visitLoop_len (cands : List Visit) : ∀ succ : Nat,
    (visitLoop cands succ).2.length ≤ 10 - succ := by
  induction cands with
  | nil =>
    intro succ
    simp [visitLoop]
  | cons v rest ih =>
    intro succ
    by_cases hcap : 10 ≤ succ
    · simp [visitLoop, hcap]
    · cases v with
      | legalRedirect =>
        simp only [visitLoop, if_neg hcap]
        exact ih succ
      | fault =>
        simp only [visitLoop, if_neg hcap]
        exact ih succ
      | ok d =>
        by_cases ht : d.title = ""
        · simp only [visitLoop, if_neg hcap, if_pos ht]
          exact ih succ
        · simp only [visitLoop, if_neg hcap, if_neg ht, List.length_cons]
          have := ih (succ + 1)
          omega

/-- C2 counterexample: 25 candidate URLs all of whose detail pages yield
an empty title.  `successful_jobs` never increases, so the loop navigates
to all 25 candidates — not exactly 10 as the claim states: the hardcoded
cap counts emitted records, not visited pages. -/
theorem C2_counterexample :
    visitLoop (List.replicate 25 (Visit.ok emptyTitlePage)) 0 = (25, []) ∧
    (25 : Nat) ≠ 10 := by
  decide

/-- C2 amended: with the hardcoded cap of 10, at most 10 records are
emitted from any candidate list; once 10 records have been emitted the
loop visits no further candidate (a loop entered with
`successful_jobs = 10` stops immediately); the cap counts emitted records,
not visited pages, so exactly 10 of 25 candidates are visited when every
visited page yields a record — as in the spec scenario of 25 candidates
that all extract successfully. -/
theorem C2_amended :
    (∀ cands : List Visit, (visitLoop cands 0).2.length ≤ 10) ∧
    (∀ (v : Visit) (rest : List Visit), visitLoop (v :: rest) 10 = (0, [])) ∧
    visitLoop (List.replicate 25 (Visit.ok goodPage)) 0 =
      (10, List.replicate 10 (row goodPage)) := by
  refine ⟨?_, ?_, by decide⟩
  · intro cands
    simpa using visitLoop_len cands 0
  · intro v rest
    rfl

/-- C7: a row is appended to `job_data` only when the extracted title is
non-empty (line 442, `if title:`), and a visited page whose title is empty
contributes no row — the loop continues normally, so the discard is not an
error. -/
theorem C7_title_nonempty : ∀ (cands : List Visit) (succ : Nat),
    (∀ r ∈ (visitLoop cands succ).2, ∃ d : PageData, r = row d ∧ d.title ≠ "") ∧
    (∀ (d : PageData) (rest : List Visit), d.title = "" →
      (visitLoop (Visit.ok d :: rest) succ).2 = (visitLoop rest succ).2) := by
  intro cands succ
  constructor
  · intro r hr
    exact visitLoop_row_shape cands succ r hr
  · intro d rest ht
    by_cases hcap : 10 ≤ succ
    · simp [visitLoop, hcap, visitLoop_capped rest succ hcap]
    · simp [visitLoop, hcap, ht]

/-- C7 witness: a concrete run where the empty-title page is discarded. -/
theorem C7_title_nonempty_witness :
    (visitLoop [Visit.ok emptyTitlePage, Visit.ok goodPage] 0).2 =
      (visitLoop [Visit.ok goodPage] 0).2 :=
  (C7_title_nonempty [Visit.ok emptyTitlePage, Visit.ok goodPage] 0).2
    emptyTitlePage [Visit.ok goodPage] rfl

/-! ### Record sink — `src/main.py` lines 453-470

```
if job_data:
    SHEET.clear()
    SHEET.insert_row(["Title", "Company", "Location", "Posted", "Apply Link"], 1)
    SHEET.append_rows(job_data)
else:
    print("No jobs found to save.")
```
The sheet is modelled by its list of rows.  A non-empty run CLEARS the
sheet and rewrites it from scratch; an empty run leaves it untouched. -/

/-- The header row inserted at line 464. -/
def sheetHeader : List String :=
  ["Title", "Company", "Location", "Posted", "Apply Link"]

/-- Lines 453-470: the new sheet contents after a run that extracted
`jobData`, given the previous contents `prior`. -/
def saveToSheet (prior jobData : List (List String)) : List (List String) :=
  if jobData = [] then prior else sheetHeader :: jobData

/-- One pipeline run against sheet state `prior`: process the candidates,
then save. -/
def runPipeline (prior : List (List String)) (cands : List Visit) : List (List String) :=
  saveToSheet prior (visitLoop cands 0).2

/-- C1 counterexample: the sink write is `clear()` followed by a full
rewrite, not an append, and no previously seen identifiers are loaded or
consulted — a pre-existing row vanishes after a run that extracted one
record, which append semantics would have preserved. -/
theorem C1_counterexample :
    runPipeline [["old row"]] [Visit.ok goodPage] = [sheetHeader, row goodPage] ∧
    ["old row"] ∉ runPipeline [["old row"]] [Visit.ok goodPage] := by
  decide

/-- C1 amended: rerunning the pipeline against the sink state left by a
first run, with the same source records, yields exactly the same sink
state — the write clears the sheet and rewrites it from the run's records
alone (and an empty run writes nothing), so a rerun introduces no
duplicate rows; there is no DedupStore, no membership filter and no
append: idempotence comes from the clear-and-replace write performed after
the run completes. -/
theorem C1_rerun_idempotent (prior : List (List String)) (cands : List Visit) :
    runPipeline (runPipeline prior cands) cands = runPipeline prior cands := by
  unfold runPipeline saveToSheet
  by_cases h : (visitLoop cands 0).2 = []
  · simp [h]
  · simp [h]

/-- C9 counterexample: the rows written to the sink have five columns —
title, company, location, posted text, apply link — not the nine columns
the claim lists (no id, no applyResolutionKind/Value split, no sourceUrl,
no capturedAt). -/
theorem C9_counterexample :
    (visitLoop [Visit.ok goodPage] 0).2 = [row goodPage] ∧
    (row goodPage).length = 5 ∧ (5 : Nat) ≠ 9 := by
  decide

/-- C9 amended: every row the run appends to `job_data` (and hence writes
to the sheet) has exactly the five columns
`[title, company, location, postedText, applyLink]`, matching the header
`["Title", "Company", "Location", "Posted", "Apply Link"]`. -/
theorem C9_amended : ∀ (cands : List Visit) (succ : Nat) (r : List String),
    r ∈ (visitLoop cands succ).2 →
    (∃ d : PageData, r = row d) ∧ r.length = 5 ∧ r.length = sheetHeader.length := by
  intro cands succ r hr
  obtain ⟨d, hd, -⟩ := visitLoop_row_shape cands succ r hr
  subst hd
  exact ⟨⟨d, rfl⟩, rfl, rfl⟩

/-- C9 amended, witness: the shape fact at a concrete run. -/
theorem C9_amended_witness :
    (∃ d : PageData, row goodPage = row d) ∧
      (row goodPage).length = 5 ∧ (row goodPage).length = sheetHeader.length :=
  C9_amended [Visit.ok goodPage] 0 (row goodPage) (by decide)

/-- C10: if the run extracted zero records the saving branch is skipped
and the sheet keeps its previous contents — no clear, no header row; when
at least one record was extracted the previous contents are replaced
wholesale by the header and the new rows. -/
theorem C10_zero_record_frame (prior : List (List String)) (cands : List Visit) :
    ((visitLoop cands 0).2 = [] → runPipeline prior cands = prior) ∧
    ((visitLoop cands 0).2 ≠ [] →
      runPipeline prior cands = sheetHeader :: (visitLoop cands 0).2) := by
  constructor
  · intro h
    simp [runPipeline, saveToSheet, h]
  · intro h
    simp [runPipeline, saveToSheet, h]

/-- C10 witness: a run over candidates that all fail to produce a record
leaves a concrete pre-existing sheet exactly as it was. -/
theorem C10_zero_record_frame_witness :
    runPipeline [["kept row"]] [Visit.ok emptyTitlePage, Visit.legalRedirect] =
      [["kept row"]] :=
  (C10_zero_record_frame [["kept row"]]
      [Visit.ok emptyTitlePage, Visit.legalRedirect]).1 (by decide)

/-! ### Session gate and exit status — `src/main.py` lines 104-130, 480-486

After the initial navigation (and one URL-triggered retry, lines
115-120), line 126 checks the page content:
```
if "user-agreement" in page_content or "legal" in page_content \
        or "We're experiencing some" in page_content:
    await browser.close()
    return
```
The blocked branch closes the browser and RETURNS NORMALLY; `main` merely
awaits `scrape_jobs` and `asyncio.run(main())` exits with status 0
whenever no exception propagates, so a blocked run and a normal run both
exit 0. -/

/-- The blocked-content test of line 126. -/
def contentBlocked (content : String) : Bool :=
  strContains content "user-agreement" || strContains content "legal" ||
    strContains content "We\x27re experiencing some"

/-- Everything observable about one `scrape_jobs` invocation. -/
structure RunOutcome where
  browserClosed : Bool
  visited : Nat
  sink : List (List String)
  raised : Bool
deriving DecidableEq

/-- `scrape_jobs` from the session gate on: when the page content is
blocked, close the browser and return (lines 126-130); otherwise run the
candidate loop and save (lines 155-478, browser closed at line 478).
Neither branch raises. -/
def scrapeRun (content : String) (prior : List (List String)) (cands : List Visit) :
    RunOutcome :=
  if contentBlocked content then
    { browserClosed := true, visited := 0, sink := prior, raised := false }
  else
    { browserClosed := true
      visited := (visitLoop cands 0).1
      sink := runPipeline prior cands
      raised := false }

/-- Lines 480-486: the process exit status is non-zero exactly when an
exception escapes `main` into `asyncio.run`. -/
def exitCode (r : RunOutcome) : Nat :=
  if r.raised then 1 else 0

/-- C8 counterexample: a run whose page content triggers the blocked check
returns normally — the process exit code is 0, not the non-zero code the
claim requires for an access-blocked run. -/
theorem C8_counterexample :
    contentBlocked "redirected to the user-agreement page" = true ∧
    exitCode (scrapeRun "redirected to the user-agreement page" [["kept"]] []) = 0 := by
  decide

/-- C8 amended: when the page content still indicates a legal/checkpoint
block (after the URL-triggered retry), the run aborts all collection —
no candidate is visited, the sink is untouched — and the browser is
closed; but the failure is NOT reported upward: the coroutine returns
normally and the process exit code is 0 for blocked and normal runs
alike. -/
theorem C8_amended (content : String) (prior : List (List String)) (cands : List Visit) :
    (contentBlocked content = true →
      scrapeRun content prior cands =
        { browserClosed := true, visited := 0, sink := prior, raised := false }) ∧
    (scrapeRun content prior cands).browserClosed = true ∧
    exitCode (scrapeRun content prior cands) = 0 := by
  refine ⟨?_, ?_, ?_⟩
  · intro h
    simp [scrapeRun, h]
  · by_cases h : contentBlocked content = true
    · simp [scrapeRun, h]
    · simp only [Bool.not_eq_true] at h
      simp [scrapeRun, h]
  · by_cases h : contentBlocked content = true
    · simp [scrapeRun, exitCode, h]
    · simp only [Bool.not_eq_true] at h
      simp [scrapeRun, exitCode, h]

/-- C8 amended, witness: the abort conjunct at a concrete blocked run. -/
theorem C8_amended_witness :
    scrapeRun "redirected to the user-agreement page" [["kept"]]
        [Visit.ok goodPage] =
      { browserClosed := true, visited := 0, sink := [["kept"]], raised := false } :=
  (C8_amended "redirected to the user-agreement page" [["kept"]]
      [Visit.ok goodPage]).1 (by decide)

end TeddySaga
